import Mathlib

/-!
# Verification of the winbollocks gesture engine

A shallow embedding, in Lean 4, of the input-interception and gesture engine
of the `winbollocks` repository (`src/main.go`), together with theorems that
settle the frozen claims about it.

Modelling conventions:

* Go `int32` screen coordinates and sizes are modelled as `Int`; none of the
  claims under study depends on 32-bit wraparound (all are order/structure
  properties preserved by the inclusion of the reachable coordinate range
  into `Int`).
* Go integer division (which truncates toward zero) is modelled by
  `Int.tdiv`, which has exactly that semantics.
* Go `float64` values (`initialAspectRatio` in the source; here
  `initialAspect`) are modelled as exact rationals `ℚ`; the conversion
  `int32(x)` of a `float64` (truncation toward zero) is modelled by
  `truncF64`.  The claims about the centre-zone resize are algebraic
  statements about the algorithm, which the rational model represents
  exactly.
* Windows handles (`windows.Handle`) are modelled as `Nat`, with `0` the
  null handle, matching the source's `hwnd == 0` tests.
* The hook callbacks perform OS side effects (SendInput, PostMessage,
  SetCapture, ReleaseCapture, tray notifications).  Each handler returns,
  next to the updated engine state, the list of side effects it performed,
  in program order, as values of the `Effect` type.
* The bounded channel `moveDataChan = make(chan WindowMoveData, 2048)` is
  part of the engine state (`chanBuf`), with its capacity `chanCapacity`.
  A Go `select { case ch <- d: ... default: ... }` succeeds exactly when
  the buffer has room (the consumer never blocks in a receive, it drains
  with a non-blocking select of its own), and a plain `ch <- d` on a full
  buffer suspends the sending thread: this is modelled by the
  `MouseResult.blocked` outcome, in which the hook callback does not
  return.
-/

namespace Winbollocks
/-- Win32 `POINT` (src/main.go): a cursor position in signed screen
coordinates. -/
structure POINT where
  X : Int
  Y : Int
deriving DecidableEq, Repr

/-- Win32 `RECT` (src/main.go): a window rectangle, edges in signed screen
coordinates. -/
structure RECT where
  Left : Int
  Top : Int
  Right : Int
  Bottom : Int
deriving DecidableEq, Repr

/-- `dragState` (src/main.go lines 541-546): start cursor point, start
window rectangle, and the learned minimum width/height. -/
structure dragState where
  startPt : POINT
  startRect : RECT
  knownMinW : Int
  knownMinH : Int
deriving DecidableEq, Repr

/-- The 3×3 resize-zone constants (src/main.go lines 438-448, an `iota`
block starting at 0). -/
abbrev ZONE_TOP_LEFT : Int := 0
abbrev ZONE_TOP_CENTER : Int := 1
abbrev ZONE_TOP_RIGHT : Int := 2
abbrev ZONE_MID_LEFT : Int := 3
abbrev ZONE_CENTER : Int := 4
abbrev ZONE_MID_RIGHT : Int := 5
abbrev ZONE_BOT_LEFT : Int := 6
abbrev ZONE_BOT_CENTER : Int := 7
abbrev ZONE_BOT_RIGHT : Int := 8

/-- `getResizeZone` (src/main.go lines 605-624): computes the 3×3 grid zone
of a cursor point within a rectangle.  Go's `/` on integers truncates
toward zero, hence `Int.tdiv`. -/
def getResizeZone (pt : POINT) (r : RECT) : Int :=
  let w := r.Right - r.Left
  let h := r.Bottom - r.Top
  let col : Int :=
    if pt.X > r.Left + (2 * w).tdiv 3 then 2
    else if pt.X > r.Left + w.tdiv 3 then 1
    else 0
  let row : Int :=
    if pt.Y > r.Top + (2 * h).tdiv 3 then 2
    else if pt.Y > r.Top + h.tdiv 3 then 1
    else 0
  row * 3 + col

/-- `minimumW` (src/main.go line 626): the 300-pixel floor seeding the
learned minimum width. -/
def minimumW : Int := 300

/-- `minimumH` (src/main.go line 627): the 300-pixel floor seeding the
learned minimum height. -/
def minimumH : Int := 300

/-- Go's `int32(x)` conversion of a `float64` value, which truncates toward
zero; on the rational model this is truncation toward zero of a rational. -/
def truncF64 (q : ℚ) : Int :=
  q.num.tdiv q.den

/-- Membership of a zone in the left column of the 3×3 grid, i.e. the zones
whose left edge the resize mutates (the disjunction written out at
src/main.go line 715). -/
abbrev isLeftZone (zone : Int) : Prop :=
  zone = ZONE_TOP_LEFT ∨ zone = ZONE_MID_LEFT ∨ zone = ZONE_BOT_LEFT

/-- Zones whose right edge the resize mutates (src/main.go line 720). -/
abbrev isRightZone (zone : Int) : Prop :=
  zone = ZONE_TOP_RIGHT ∨ zone = ZONE_MID_RIGHT ∨ zone = ZONE_BOT_RIGHT

/-- Zones whose top edge the resize mutates (src/main.go line 725). -/
abbrev isTopZone (zone : Int) : Prop :=
  zone = ZONE_TOP_LEFT ∨ zone = ZONE_TOP_CENTER ∨ zone = ZONE_TOP_RIGHT

/-- Zones whose bottom edge the resize mutates (src/main.go line 730). -/
abbrev isBotZone (zone : Int) : Prop :=
  zone = ZONE_BOT_LEFT ∨ zone = ZONE_BOT_CENTER ∨ zone = ZONE_BOT_RIGHT

/-- The `(dw, dh)` pair derived from the cursor displacement in the centre
zone (src/main.go lines 646-659): with aspect preservation, the larger
axis drives (`dw = dx*2, dh = dw/aspect` when the initial aspect is at
least 1, else `dh = dy*2, dw = dh*aspect`); without it, both axes move
freely. -/
def centerDeltas (respectAspect : Bool) (initialAspect : ℚ)
    (dx dy : Int) : Int × Int :=
  if respectAspect then
    (if 1 ≤ initialAspect then
      (dx * 2, truncF64 (((dx * 2 : Int) : ℚ) / initialAspect))
     else
      (truncF64 (((dy * 2 : Int) : ℚ) * initialAspect), dy * 2))
  else (dx * 2, dy * 2)

/-- The first clamp pass of the centre resize (src/main.go lines 664-676):
`if w < minW { w = minW; if aspect-on { h = w/aspect } }` then
`if h < minH { h = minH; if aspect-on { w = h*aspect } }`, each Go
assignment reading the current value of the other variable, which the
scalar unrolling reproduces exactly. -/
def clampPassOne (respectAspect : Bool) (initialAspect : ℚ)
    (minW minH w h : Int) : Int × Int :=
  let w1 := if w < minW then minW else w
  let h1 :=
    if w < minW then
      (if respectAspect = true ∧ 0 < initialAspect then
        truncF64 ((minW : ℚ) / initialAspect)
       else h)
    else h
  let w2 :=
    if h1 < minH then
      (if respectAspect = true ∧ 0 < initialAspect then
        truncF64 ((minH : ℚ) * initialAspect)
       else w1)
    else w1
  let h2 := if h1 < minH then minH else h1
  (w2, h2)

/-- The "second pass for absolute safety" of the centre resize
(src/main.go lines 678-683). -/
def clampPassTwo (minW minH w h : Int) : Int × Int :=
  (if w < minW then minW else w, if h < minH then minH else h)

/-- The `zone == ZONE_CENTER` branch of `calculateResize` (src/main.go
lines 644-686): uniform centre resize about the original centre,
optionally preserving the captured aspect ratio, composed of the delta
derivation, the ratio-re-applying clamp pass, and the absolute-safety
pass; the output top-left re-centres the clamped size on the original
centre (`x = origL + (origW-w)/2`, truncating division). -/
def centerResize (respectAspect : Bool) (initialAspect : ℚ)
    (drag : dragState) (currentPt : POINT) : Int × Int × Int × Int :=
  let dx := currentPt.X - drag.startPt.X
  let dy := currentPt.Y - drag.startPt.Y
  let origL := drag.startRect.Left
  let origT := drag.startRect.Top
  let origW := drag.startRect.Right - drag.startRect.Left
  let origH := drag.startRect.Bottom - drag.startRect.Top
  let minW := drag.knownMinW
  let minH := drag.knownMinH
  let d := centerDeltas respectAspect initialAspect dx dy
  let p1 := clampPassOne respectAspect initialAspect minW minH (origW + d.1) (origH + d.2)
  let p2 := clampPassTwo minW minH p1.1 p1.2
  (origL + (origW - p2.1).tdiv 2, origT + (origH - p2.2).tdiv 2, p2.1, p2.2)

/-- The 8-grid edge/corner branch of `calculateResize` (src/main.go lines
688-737).  The switch on `zone` mutates `newL/newT/newR/newB` per case,
which is equivalent to the four conditional mutations below (default case:
no mutation); then the learned minimums are strictly enforced against the
moving edge, in program order. -/
def edgeResize (drag : dragState) (zone : Int) (currentPt : POINT) :
    Int × Int × Int × Int :=
  let dx := currentPt.X - drag.startPt.X
  let dy := currentPt.Y - drag.startPt.Y
  let origL := drag.startRect.Left
  let origT := drag.startRect.Top
  let origR := drag.startRect.Right
  let origB := drag.startRect.Bottom
  let minW := drag.knownMinW
  let minH := drag.knownMinH
  let newL := if isLeftZone zone then origL + dx else origL
  let newT := if isTopZone zone then origT + dy else origT
  let newR := if isRightZone zone then origR + dx else origR
  let newB := if isBotZone zone then origB + dy else origB
  let newL1 := if isLeftZone zone ∧ newR - newL < minW then newR - minW else newL
  let newR1 := if isRightZone zone ∧ newR - newL1 < minW then newL1 + minW else newR
  let newT1 := if isTopZone zone ∧ newB - newT < minH then newB - minH else newT
  let newB1 := if isBotZone zone ∧ newB - newT1 < minH then newT1 + minH else newB
  (newL1, newT1, newR1 - newL1, newB1 - newT1)

/-- `calculateResize` (src/main.go lines 629-741).  The Go function reads
the globals `respectAspectRatio` and `initialAspectRatio`; the embedding
passes them as the explicit parameters `respectAspect` and `initialAspect`
(renamed to avoid clashing with the proof tooling's name conventions).
Returns `(x, y, w, h)`. -/
def calculateResize (respectAspect : Bool) (initialAspect : ℚ)
    (drag : dragState) (zone : Int) (currentPt : POINT) :
    Int × Int × Int × Int :=
  if zone = ZONE_CENTER then centerResize respectAspect initialAspect drag currentPt
  else edgeResize drag zone currentPt

/-- The width delta the centre zone derives from the cursor displacement
when aspect preservation is on (src/main.go lines 648-655): the larger
axis drives. -/
def centerDW (initialAspect : ℚ) (dx dy : Int) : Int :=
  if 1 ≤ initialAspect then dx * 2
  else truncF64 (((dy * 2 : Int) : ℚ) * initialAspect)

/-- The height delta of the centre zone with aspect preservation on
(src/main.go lines 648-655). -/
def centerDH (initialAspect : ℚ) (dx dy : Int) : Int :=
  if 1 ≤ initialAspect then truncF64 (((dx * 2 : Int) : ℚ) / initialAspect)
  else dy * 2

/-- The conclusion of the amended C6: for an edge/corner zone, the resize
keeps the anchor (non-mutated) edges of the original rectangle fixed,
clamps each mutated dimension to its learned minimum by moving only the
mutating edge, and leaves an unmutated dimension at its original
extent. -/
def EdgeZoneOK (respectAspect : Bool) (initialAspect : ℚ)
    (drag : dragState) (zone : Int) (currentPt : POINT) : Prop :=
  let r := calculateResize respectAspect initialAspect drag zone currentPt
  let x := r.1
  let y := r.2.1
  let w := r.2.2.1
  let h := r.2.2.2
  (isLeftZone zone → x + w = drag.startRect.Right ∧ drag.knownMinW ≤ w) ∧
  (isRightZone zone → x = drag.startRect.Left ∧ drag.knownMinW ≤ w) ∧
  (isTopZone zone → y + h = drag.startRect.Bottom ∧ drag.knownMinH ≤ h) ∧
  (isBotZone zone → y = drag.startRect.Top ∧ drag.knownMinH ≤ h) ∧
  (¬isLeftZone zone → ¬isRightZone zone →
    x = drag.startRect.Left ∧ x + w = drag.startRect.Right) ∧
  (¬isTopZone zone → ¬isBotZone zone →
    y = drag.startRect.Top ∧ y + h = drag.startRect.Bottom)

/-- The conclusion of C7 about `calculateResize` on the centre zone with
aspect preservation enabled: the output respects both learned minimums,
is re-centred on the original window centre up to integer rounding, and,
whenever no clamping is needed, the new size is the original size plus
`(dw, dh)` with the larger axis driving. -/
def CenterResizeOK (initialAspect : ℚ) (drag : dragState)
    (currentPt : POINT) : Prop :=
  let r := calculateResize true initialAspect drag ZONE_CENTER currentPt
  let x := r.1
  let y := r.2.1
  let w := r.2.2.1
  let h := r.2.2.2
  let dx := currentPt.X - drag.startPt.X
  let dy := currentPt.Y - drag.startPt.Y
  let origW := drag.startRect.Right - drag.startRect.Left
  let origH := drag.startRect.Bottom - drag.startRect.Top
  (drag.knownMinW ≤ w) ∧
  (drag.knownMinH ≤ h) ∧
  (-1 ≤ 2 * x + w - (2 * drag.startRect.Left + origW) ∧
   2 * x + w - (2 * drag.startRect.Left + origW) ≤ 1) ∧
  (-1 ≤ 2 * y + h - (2 * drag.startRect.Top + origH) ∧
   2 * y + h - (2 * drag.startRect.Top + origH) ≤ 1) ∧
  (drag.knownMinW ≤ origW + centerDW initialAspect dx dy →
   drag.knownMinH ≤ origH + centerDH initialAspect dx dy →
   w = origW + centerDW initialAspect dx dy ∧
   h = origH + centerDH initialAspect dx dy)

/-! ## The gesture engine

The hook-thread state machine of `mouseProc` / `keyboardProc`
(src/main.go lines 1590-2077 and 2969-3156) and its helpers `softReset`,
`hardReset`, `startDrag`, `startManualDrag` (lines 1107-1190).  The
package-level variables owned by the hook thread are gathered into
`EngineState`; environment reads performed by a handler (async key
state via `keyDown`, `windowFromPoint`, `GetWindowRect`, integrity
levels, rate-limit clocks) are passed in per-event environment records;
OS side effects are returned as an `Effect` list in program order. -/

/-- `SetWindowPos` flag constants (src/main.go lines 352-356). -/
def SWP_NOSIZE : Nat := 0x0001
def SWP_NOMOVE : Nat := 0x0002
def SWP_NOZORDER : Nat := 0x0004
def SWP_NOACTIVATE : Nat := 0x0010
def SWP_ASYNCWINDOWPOS : Nat := 0x4000

/-- `HWND_BOTTOM` (src/main.go line 310). -/
def HWND_BOTTOM : Nat := 1

/-- `HWND_TOP` (src/main.go line 312). -/
def HWND_TOP : Nat := 0

/-- `WindowMoveData` (src/main.go lines 460-467): the command record
copied by value into the bounded channel. -/
structure WindowMoveData where
  Hwnd : Nat
  X : Int
  Y : Int
  W : Int
  H : Int
  InsertAfter : Nat
  Flags : Nat
deriving DecidableEq, Repr

/-- `moveDataChan = make(chan WindowMoveData, 2048)` (src/main.go
line 115): the channel capacity. -/
def chanCapacity : Nat := 2048

/-- OS side effects a hook handler can perform, in program order.
`sendInputShiftTap` is a *direct* `SendInput` call of the benign
right-shift down/up tap (`injectShiftTapOnly`, src/main.go lines
744-782); `postInjectSequence` is a `PostMessage` of
`WM_INJECT_SEQUENCE` to the worker's message window, asking the worker
to perform the injection instead. -/
inductive Effect where
  | sendInputShiftTap
  | restoreWindow (hwnd : Nat)
  | showTrayElevated
  | setCapture
  | releaseCapture
  | hideOverlay
  | postFocusTarget
  | postDoSetWindowPos
  | postInjectSequence (vk : Nat)
  | enqueue (d : WindowMoveData)
deriving DecidableEq, Repr

/-- The `panic` calls reachable from the mouse hook: the
`"impossible state"` panic at src/main.go line 1653, and the
`"race detected1"` / `"race detected2"` panics at lines 1928 and 1916. -/
inductive PanicKind where
  | capturingWithoutTarget
  | raceDetected1
  | raceDetected2
deriving DecidableEq, Repr

/-- The hook-thread-owned package-level state (src/main.go lines 575-601
and 450-455): the gesture flags, the drag state, the captured aspect
ratio (`initialAspectRatio` in the source, a `float64`, modelled as `ℚ`),
the rate-limit memory `lastPostedX/Y`, and the bounded command channel
with its drop counter. -/
structure EngineState where
  capturing : Bool
  resizing : Bool
  targetWnd : Nat
  currentDrag : Option dragState
  winGestureUsed : Bool
  resizeZone : Int
  initialAspect : ℚ
  respectAspect : Bool
  lastPostedX : Int
  lastPostedY : Int
  chanBuf : List WindowMoveData
  droppedMoveEvents : Nat
deriving DecidableEq, Repr

/-- The outcome of one hook callback: `ok st effs swallowed` — the
callback returned (`swallowed = true` means it returned the non-zero
sentinel that eats the event); `panicked` — a `panic` fired; `blocked` —
the callback is suspended in a plain (non-select) channel send on a full
buffer and has not returned. -/
inductive HookResult where
  | ok (st : EngineState) (effs : List Effect) (swallowed : Bool)
  | panicked (kind : PanicKind) (st : EngineState) (effs : List Effect)
  | blocked (pending : WindowMoveData) (st : EngineState) (effs : List Effect)
deriving DecidableEq, Repr

/-- `softReset` (src/main.go lines 1158-1180): clear `capturing`,
`resizing`, `targetWnd`, `currentDrag`; optionally `ReleaseCapture`; hide
the overlay.  `winGestureUsed` is preserved. -/
def softReset (st : EngineState) (releaseCapture : Bool) :
    EngineState × List Effect :=
  ({st with capturing := false, resizing := false, targetWnd := 0,
            currentDrag := none},
   (if releaseCapture then [Effect.releaseCapture] else []) ++ [Effect.hideOverlay])

/-- `hardReset` (src/main.go lines 1182-1190): re-query the async Win-key
state (`winDownAsync`); when the current Win-hold already consumed a
gesture *and* Win is still down, inject the poison tap directly and clear
`winGestureUsed`; then perform a soft reset. -/
def hardReset (st : EngineState) (winDownAsync : Bool)
    (releaseCapture : Bool) : EngineState × List Effect :=
  if st.winGestureUsed && winDownAsync then
    let r := softReset {st with winGestureUsed := false} releaseCapture
    (r.1, Effect.sendInputShiftTap :: r.2)
  else softReset st releaseCapture

/-- Environment reads of the `WM_LBUTTONDOWN` arm of `mouseProc` and of
`startDrag` (src/main.go lines 1622-1729 and 1124-1151): the async
modifier state, the window under the cursor, its rectangle, the two
integrity-level queries (`none` models a query error `e1`/`e2`), the
maximized check, the foreground check, and the `focusOnDrag` toggle. -/
structure LButtonDownEnv where
  winDown : Bool
  shiftDown : Bool
  ctrlDown : Bool
  altDown : Bool
  pt : POINT
  wantTargetWnd : Nat
  windowRect : RECT
  targetIntegrity : Option Int
  selfIntegrity : Option Int
  isMax : Bool
  targetIsForeground : Bool
  focusOnDrag : Bool
deriving DecidableEq, Repr

/-- `startManualDrag` (src/main.go lines 1107-1122): capture the mouse to
the hidden window and create the drag state (its `knownMinW/H` are the Go
zero values). -/
def startManualDrag (st : EngineState) (rect : RECT) (pt : POINT) :
    EngineState × List Effect :=
  ({st with currentDrag := some ⟨pt, rect, 0, 0⟩}, [Effect.setCapture])

/-- `startDrag` (src/main.go lines 1124-1151): restore a maximized
window; then, when both integrity queries succeed and the target's level
exceeds our own, show a tray notification and return *without creating
the drag state*; otherwise fall through to `startManualDrag`. -/
def startDrag (st : EngineState) (env : LButtonDownEnv) :
    EngineState × List Effect :=
  let effs0 := if env.isMax then [Effect.restoreWindow st.targetWnd] else []
  match env.targetIntegrity, env.selfIntegrity with
  | some t, some s =>
    if s < t then (st, effs0 ++ [Effect.showTrayElevated])
    else
      let r := startManualDrag st env.windowRect env.pt
      (r.1, effs0 ++ r.2)
  | _, _ =>
    let r := startManualDrag st env.windowRect env.pt
    (r.1, effs0 ++ r.2)

/-- The tail of the `WM_LBUTTONDOWN` arm (src/main.go lines 1684-1728):
set `targetWnd`, run `startDrag`, set `capturing`, optionally post the
focus request, swallow the button. -/
def lbdProceed (st : EngineState) (effs : List Effect)
    (env : LButtonDownEnv) : HookResult :=
  let st2 := {st with targetWnd := env.wantTargetWnd}
  let r := startDrag st2 env
  let st3 := {r.1 with capturing := true}
  let effs2 :=
    if env.focusOnDrag && !env.targetIsForeground then [Effect.postFocusTarget]
    else []
  .ok st3 (effs ++ r.2 ++ effs2) true

/-- The `WM_LBUTTONDOWN` arm of `mouseProc` (src/main.go lines
1622-1729). -/
def mouseLButtonDown (st : EngineState) (env : LButtonDownEnv) : HookResult :=
  if env.winDown && !env.shiftDown && !env.altDown && !env.ctrlDown then
    let stEff1 : EngineState × List Effect :=
      if !st.winGestureUsed then
        ({st with winGestureUsed := true}, [Effect.sendInputShiftTap])
      else (st, [])
    let st1 := stEff1.1
    let effs1 := stEff1.2
    if env.wantTargetWnd = 0 then
      .ok st1 effs1 true
    else if st1.capturing then
      if st1.targetWnd = 0 then
        .panicked .capturingWithoutTarget st1 effs1
      else if st1.targetWnd = env.wantTargetWnd then
        .ok st1 effs1 true
      else
        let r0 := softReset st1 true
        lbdProceed r0.1 (effs1 ++ r0.2) env
    else
      lbdProceed st1 effs1 env
  else .ok st [] false

/-- The `WM_LBUTTONUP` arm of `mouseProc` (src/main.go lines
1900-1917). -/
def mouseLButtonUp (st : EngineState) : HookResult :=
  if st.capturing && st.currentDrag.isSome then
    let r := softReset st true
    .ok r.1 r.2 true
  else if st.capturing || st.currentDrag.isSome then
    .panicked .raceDetected2 st []
  else .ok st [] false

/-- The `WM_RBUTTONUP` arm of `mouseProc` (src/main.go lines
1919-1929). -/
def mouseRButtonUp (st : EngineState) : HookResult :=
  if st.resizing && st.currentDrag.isSome then
    let r := softReset st true
    .ok r.1 r.2 true
  else if st.resizing || st.currentDrag.isSome then
    .panicked .raceDetected1 st []
  else .ok st [] false

/-- Environment reads of the `WM_MOUSEMOVE` arm (src/main.go lines
1731-1898): the async Win state (the handler and the `hardReset` it may
call read it once per event here), the cursor position, whether the
10 ms executor rate gate is open (`time.Since(lastResize) >= 10ms`), the
`ratelimitOnMove` toggle, and whether `MIN_MOVE_INTERVAL` has elapsed
since the last posted move. -/
structure MouseMoveEnv where
  winDown : Bool
  pt : POINT
  rateGateOpen : Bool
  ratelimitOnMove : Bool
  minIntervalElapsed : Bool
deriving DecidableEq, Repr

/-- The non-blocking producer push (the `select`/`default` block,
src/main.go lines 1850-1868 and 2040-2057): on room, append and ring the
doorbell; on a full buffer, drop and count. -/
def tryPushMove (st : EngineState) (d : WindowMoveData) :
    EngineState × List Effect :=
  if st.chanBuf.length < chanCapacity then
    ({st with chanBuf := st.chanBuf ++ [d]},
     [Effect.enqueue d, Effect.postDoSetWindowPos])
  else
    ({st with droppedMoveEvents := st.droppedMoveEvents + 1}, [])

/-- The `if resizing && currentDrag != nil` block of the `WM_MOUSEMOVE`
arm (src/main.go lines 1881-1898): compute the resize and send it with a
*plain blocking* channel send (`moveDataChan <- ...`, line 1886), then
ring the doorbell; the event falls through (is not eaten). -/
def resizeBranchMM (st : EngineState) (env : MouseMoveEnv)
    (effs : List Effect) : HookResult :=
  match st.currentDrag with
  | some dr =>
    if st.resizing && env.rateGateOpen then
      let r := calculateResize st.respectAspect st.initialAspect dr st.resizeZone env.pt
      let d : WindowMoveData :=
        { Hwnd := st.targetWnd, X := r.1, Y := r.2.1, W := r.2.2.1, H := r.2.2.2,
          InsertAfter := 0, Flags := SWP_NOZORDER ||| SWP_NOACTIVATE }
      if st.chanBuf.length < chanCapacity then
        .ok {st with chanBuf := st.chanBuf ++ [d]}
          (effs ++ [Effect.enqueue d, Effect.postDoSetWindowPos]) false
      else
        .blocked d st effs
    else .ok st effs false
  | none => .ok st effs false

/-- The `WM_MOUSEMOVE` arm of `mouseProc` (src/main.go lines 1731-1898).
While `capturing` with a drag: a detected async Win-up hard-resets and
`break`s out of the switch (skipping the resize block); otherwise, inside
the 10 ms gate, the move command with the new top-left is computed,
debounced per `willPostMessage`, and try-pushed.  The resize block then
runs on the (possibly updated) state. -/
def mouseMouseMove (st : EngineState) (env : MouseMoveEnv) : HookResult :=
  match st.currentDrag with
  | some dr =>
    if st.capturing then
      if !env.winDown then
        let r := hardReset st env.winDown true
        .ok r.1 r.2 false
      else
        if env.rateGateOpen then
          let newX := dr.startRect.Left + (env.pt.X - dr.startPt.X)
          let newY := dr.startRect.Top + (env.pt.Y - dr.startPt.Y)
          let willPostMessage :=
            !env.ratelimitOnMove ||
              ((newX != st.lastPostedX || newY != st.lastPostedY) &&
                env.minIntervalElapsed)
          if willPostMessage then
            let d : WindowMoveData :=
              { Hwnd := st.targetWnd, X := newX, Y := newY, W := 0, H := 0,
                InsertAfter := 0,
                Flags := SWP_NOSIZE ||| SWP_NOACTIVATE ||| SWP_NOZORDER |||
                  SWP_ASYNCWINDOWPOS }
            let r := tryPushMove st d
            let st2 :=
              if env.ratelimitOnMove then
                {r.1 with lastPostedX := newX, lastPostedY := newY}
              else r.1
            resizeBranchMM st2 env r.2
          else resizeBranchMM st env []
        else resizeBranchMM st env []
    else resizeBranchMM st env []
  | none => resizeBranchMM st env []

/-- Environment reads of the `WM_RBUTTONDOWN` arm (src/main.go lines
1931-1976). -/
structure RButtonDownEnv where
  winDown : Bool
  shiftDown : Bool
  ctrlDown : Bool
  altDown : Bool
  pt : POINT
  wantTargetWnd : Nat
  windowRect : RECT
deriving DecidableEq, Repr

/-- The `WM_RBUTTONDOWN` arm of `mouseProc` (src/main.go lines
1931-1976): on Win with no other modifier, poison once, refuse when a
drag state lingers, else target the window under the cursor and, when it
is valid, enter `Resizing` with the drag seeded at the 300×300 floor,
the zone and the aspect ratio (`w/h` as `float64`; the rational model
yields 0 for a degenerate zero-height rectangle where Go would produce
an infinity — no claim depends on that case) captured, and capture
taken. -/
def mouseRButtonDown (st : EngineState) (env : RButtonDownEnv) : HookResult :=
  if env.winDown && !env.shiftDown && !env.altDown && !env.ctrlDown then
    let stEff1 : EngineState × List Effect :=
      if !st.winGestureUsed then
        ({st with winGestureUsed := true}, [Effect.sendInputShiftTap])
      else (st, [])
    let st1 := stEff1.1
    let effs1 := stEff1.2
    if st1.currentDrag.isSome then
      .ok st1 effs1 true
    else
      let st2 := {st1 with targetWnd := env.wantTargetWnd}
      if env.wantTargetWnd ≠ 0 then
        let r := env.windowRect
        let st3 := {st2 with
          resizing := true,
          currentDrag := some ⟨env.pt, r, minimumW, minimumH⟩,
          resizeZone := getResizeZone env.pt r,
          initialAspect := ((r.Right - r.Left : Int) : ℚ) / ((r.Bottom - r.Top : Int) : ℚ)}
        .ok st3 (effs1 ++ [Effect.setCapture]) true
      else .ok st2 effs1 false
  else .ok st [] false

/-- Environment reads of the `WM_MBUTTONDOWN` arm (src/main.go lines
1978-2065). -/
structure MButtonDownEnv where
  winDown : Bool
  shiftDown : Bool
  ctrlDown : Bool
  altDown : Bool
  pt : POINT
  windowUnderCursor : Nat
  foregroundWindow : Nat
  rateGateOpen : Bool
deriving DecidableEq, Repr

/-- The `WM_MBUTTONDOWN` arm of `mouseProc` (src/main.go lines
1978-2065): on Win without Ctrl/Alt, poison once; inside the 10 ms gate,
build the z-order command — without Shift, send the window under the
cursor to the bottom; with Shift, bring the foreground window to the
top — and try-push it; swallow the button. -/
def mouseMButtonDown (st : EngineState) (env : MButtonDownEnv) : HookResult :=
  if env.winDown && !env.ctrlDown && !env.altDown then
    let stEff1 : EngineState × List Effect :=
      if !st.winGestureUsed then
        ({st with winGestureUsed := true}, [Effect.sendInputShiftTap])
      else (st, [])
    let st1 := stEff1.1
    let effs1 := stEff1.2
    if env.rateGateOpen then
      let hif : Nat × Nat × Nat :=
        if !env.shiftDown then
          (env.windowUnderCursor, HWND_BOTTOM,
           SWP_NOMOVE ||| SWP_NOSIZE ||| SWP_NOACTIVATE)
        else
          (env.foregroundWindow, HWND_TOP, SWP_NOMOVE ||| SWP_NOSIZE)
      if hif.1 ≠ 0 then
        let d : WindowMoveData :=
          { Hwnd := hif.1, X := 0, Y := 0, W := 0, H := 0,
            InsertAfter := hif.2.1, Flags := hif.2.2 }
        let r := tryPushMove st1 d
        .ok r.1 (effs1 ++ r.2) true
      else .ok st1 effs1 true
    else .ok st1 effs1 true
  else .ok st [] false

/-- A mouse hook event, as dispatched by the `switch wParam` of
`mouseProc` (src/main.go line 1621). -/
inductive MouseEvent where
  | lbuttondown (env : LButtonDownEnv)
  | mousemove (env : MouseMoveEnv)
  | lbuttonup
  | rbuttonup
  | rbuttondown (env : RButtonDownEnv)
  | mbuttondown (env : MButtonDownEnv)
  | otherMessage
deriving DecidableEq, Repr

/-- `mouseProc` (src/main.go lines 1590-2077): negative hook codes and
injected events are forwarded untouched (lines 1595-1619); otherwise the
event is dispatched by `wParam`. -/
def mouseProc (st : EngineState) (nCodeNeg injected : Bool)
    (ev : MouseEvent) : HookResult :=
  if nCodeNeg || injected then .ok st [] false
  else
    match ev with
    | .lbuttondown env => mouseLButtonDown st env
    | .mousemove env => mouseMouseMove st env
    | .lbuttonup => mouseLButtonUp st
    | .rbuttonup => mouseRButtonUp st
    | .rbuttondown env => mouseRButtonDown st env
    | .mbuttondown env => mouseMButtonDown st env
    | .otherMessage => .ok st [] false

/-- The `VK_LWIN`/`VK_RWIN` key-up arm of `keyboardProc` (src/main.go
lines 3032-3151): negative codes and injected events are forwarded; on a
genuine Win key-up, when the Win-hold consumed a gesture, clear
`winGestureUsed`, *post* `WM_INJECT_SEQUENCE` to the worker's message
window (lines 3116-3121) and eat the key-up; otherwise pass it through.
No reset of the gesture state is performed here. -/
def keyboardWinUp (st : EngineState) (nCodeNeg injected : Bool)
    (vk : Nat) : HookResult :=
  if nCodeNeg || injected then .ok st [] false
  else if st.winGestureUsed then
    .ok {st with winGestureUsed := false} [Effect.postInjectSequence vk] true
  else .ok st [] false

/-- The worker-side operations relevant to the injection control path. -/
inductive WorkerEffect where
  | sendInputShiftTapThenWinUp (vk : Nat)
deriving DecidableEq, Repr

/-- The `WM_INJECT_SEQUENCE` arm of `wndProc` (src/main.go lines
2435-2439): the worker thread performs the injection
(`injectShiftTapThenWinUp`) that the keyboard hook requested by
posting. -/
def wndProcInjectSequence (vk : Nat) : List WorkerEffect :=
  [WorkerEffect.sendInputShiftTapThenWinUp vk]

/-- The learned-minimum update of the executor's anti-slide check
(`handleActualMoveOrResize`, src/main.go lines 2341-2354): after a
size-changing command requesting `(reqW, reqH)`, the OS-reported actual
size raises a learned minimum exactly when it exceeds both the request
and the current minimum. -/
def learnMinStep (dr : dragState) (reqW reqH actualW actualH : Int) :
    dragState :=
  let dr1 :=
    if reqW < actualW ∧ dr.knownMinW < actualW then
      {dr with knownMinW := actualW}
    else dr
  if reqH < actualH ∧ dr1.knownMinH < actualH then
    {dr1 with knownMinH := actualH}
  else dr1

/-! ## Auxiliary definitions used by the claim statements -/

/-- The effect list carried by a hook outcome, regardless of how the
callback ended. -/
def resultEffects : HookResult → List Effect
  | .ok _ effs _ => effs
  | .panicked _ _ effs => effs
  | .blocked _ _ effs => effs

/-- The learned minimums of a drag state after the executor has observed
an arbitrary sequence of `(requested, actual)` size reports. -/
def learnMinFold (dr : dragState) (l : List (Int × Int × Int × Int)) : dragState :=
  l.foldl (fun d q => learnMinStep d q.1 q.2.1 q.2.2.1 q.2.2.2) dr

/-- The full channel used by the C1 counterexample and witness: 2048
queued commands, the exact capacity of `moveDataChan`. -/
def fullBuf : List WindowMoveData := List.replicate 2048 ⟨0, 0, 0, 0, 0, 0, 0⟩

/-- The C1 counterexample state: a resize gesture in progress with the
bounded channel completely full. -/
def stFullResz : EngineState :=
  ⟨false, true, 7, some ⟨⟨0, 0⟩, ⟨0, 0, 400, 300⟩, 300, 300⟩, true, 8, 2, true,
    0, 0, fullBuf, 0⟩

/-- The C1 witness state for the try-push drop: a Moving gesture with the
channel full and 3 drops already counted. -/
def stFullMove : EngineState :=
  ⟨true, false, 5, some ⟨⟨0, 0⟩, ⟨100, 100, 500, 400⟩, 0, 0⟩, true, 0, 1, true,
    0, 0, fullBuf, 3⟩

/-- Bounds for doubling a truncated halving: `2 * (d.tdiv 2)` is within one
of `d` on either side. -/
theorem two_tdiv_two_bounds (d : Int) :
    d - 1 ≤ 2 * d.tdiv 2 ∧ 2 * d.tdiv 2 ≤ d + 1 := by
  rcases d with n | n
  · constructor <;> simp [Int.tdiv] <;> omega
  · constructor <;> simp [Int.tdiv, Int.negSucc_eq] <;> omega

/-- C10: for every cursor point and every window rectangle, including
degenerate ones, `getResizeZone` returns a value in `[0, 8]`, so the zone
dispatch in `calculateResize` (a total Lean function, as the Go switch with
its default path) is exhaustive. -/
theorem getResizeZone_total (pt : POINT) (r : RECT) :
    0 ≤ getResizeZone pt r ∧ getResizeZone pt r ≤ 8 := by
  simp only [getResizeZone]
  split_ifs <;> norm_num

/-- A clamp of the shape used throughout `calculateResize` is bounded below
by the minimum it enforces. -/
theorem ite_min_le (v m : Int) : m ≤ if v < m then m else v := by
  split <;> omega

/-- Re-centring `x = base + (ext - w)/2` (truncating division) keeps the
doubled centre `2*x + w` within one unit of the original `2*base + ext`. -/
theorem recenter_bounds (base ext w : Int) :
    -1 ≤ 2 * (base + (ext - w).tdiv 2) + w - (2 * base + ext) ∧
    2 * (base + (ext - w).tdiv 2) + w - (2 * base + ext) ≤ 1 := by
  have := two_tdiv_two_bounds (ext - w)
  omega

theorem centerDeltas_eq (initialAspect : ℚ) (dx dy : Int) :
    centerDeltas true initialAspect dx dy =
      (centerDW initialAspect dx dy, centerDH initialAspect dx dy) := by
  unfold centerDeltas centerDW centerDH
  rw [if_pos rfl]
  split_ifs <;> rfl

/-- When neither minimum is violated, the first clamp pass is the
identity. -/
theorem clampPassOne_id (respectAspect : Bool) (initialAspect : ℚ)
    (minW minH w h : Int) (hw : minW ≤ w) (hh : minH ≤ h) :
    clampPassOne respectAspect initialAspect minW minH w h = (w, h) := by
  unfold clampPassOne
  split_ifs <;> simp_all <;> omega

/-- The absolute-safety pass guarantees both minimums on its output. -/
theorem clampPassTwo_min (minW minH w h : Int) :
    minW ≤ (clampPassTwo minW minH w h).1 ∧
    minH ≤ (clampPassTwo minW minH w h).2 :=
  ⟨ite_min_le _ _, ite_min_le _ _⟩

/-- When neither minimum is violated, the absolute-safety pass is the
identity. -/
theorem clampPassTwo_id (minW minH w h : Int) (hw : minW ≤ w) (hh : minH ≤ h) :
    clampPassTwo minW minH w h = (w, h) := by
  unfold clampPassTwo
  rw [if_neg (by omega), if_neg (by omega)]

/-- C6 counterexample: in zone `ZONE_MID_LEFT` (which mutates only the left
edge) on a window of original height 200 with learned minimum height 300,
the returned height stays 200, strictly below the learned minimum `minH`;
the claim that the output's *height* is at least `minH` in every non-centre
zone is therefore false — only the mutated dimension is clamped. -/
theorem calculateResize_midLeft_height_below_min :
    (calculateResize true 2 ⟨⟨0, 0⟩, ⟨0, 0, 400, 200⟩, 300, 300⟩
        ZONE_MID_LEFT ⟨-50, 10⟩).2.2.2 <
      (⟨⟨0, 0⟩, ⟨0, 0, 400, 200⟩, 300, 300⟩ : dragState).knownMinH := by
  decide

/-- C6 (amended): for every non-centre zone, `calculateResize` keeps the
anchor (non-mutated) edges exactly equal to the original rectangle's
edges; each dimension whose edge the zone mutates is at least the learned
minimum, enforced by moving only the mutating edge; a dimension whose
edges the zone does not mutate keeps its original extent (which may lie
below the minimum). -/
theorem calculateResize_edge_zones (respectAspect : Bool) (initialAspect : ℚ)
    (drag : dragState) (zone : Int) (currentPt : POINT)
    (hz : isLeftZone zone ∨ isRightZone zone ∨
          zone = ZONE_TOP_CENTER ∨ zone = ZONE_BOT_CENTER) :
    EdgeZoneOK respectAspect initialAspect drag zone currentPt := by
  rcases hz with (rfl|rfl|rfl)|(rfl|rfl|rfl)|rfl|rfl <;>
    · simp only [EdgeZoneOK, calculateResize, edgeResize, isLeftZone, isRightZone,
        isTopZone, isBotZone,
        ZONE_TOP_LEFT, ZONE_TOP_CENTER, ZONE_TOP_RIGHT, ZONE_MID_LEFT, ZONE_CENTER,
        ZONE_MID_RIGHT, ZONE_BOT_LEFT, ZONE_BOT_CENTER, ZONE_BOT_RIGHT]
      norm_num
      split_ifs <;> omega

/-- Witness for the amended C6, at the bottom-right corner zone of a
400×350 window dragged inward. -/
theorem calculateResize_edge_zones_witness :
    EdgeZoneOK true 1 ⟨⟨10, 10⟩, ⟨0, 0, 400, 350⟩, 300, 300⟩
      ZONE_BOT_RIGHT ⟨-80, -120⟩ :=
  calculateResize_edge_zones true 1 ⟨⟨10, 10⟩, ⟨0, 0, 400, 350⟩, 300, 300⟩
    ZONE_BOT_RIGHT ⟨-80, -120⟩ (by decide)

/-- C7: on the centre zone with aspect preservation enabled,
`calculateResize` derives `(dw, dh)` with the larger axis driving
(`dw = 2·dx, dh = dw/aspect` when the initial aspect ratio is at least 1,
else `dh = 2·dy, dw = dh·aspect`), re-imposes the minimums in a second
pass, and re-centres the result on the original window centre up to
integer rounding; when no clamping is needed the new size is exactly the
original size plus `(dw, dh)`. -/
theorem calculateResize_center_spec (initialAspect : ℚ) (drag : dragState)
    (currentPt : POINT) : CenterResizeOK initialAspect drag currentPt := by
  unfold CenterResizeOK calculateResize centerResize
  rw [if_pos rfl]
  dsimp only
  rw [centerDeltas_eq]
  dsimp only
  rcases hp1 : clampPassOne true initialAspect drag.knownMinW drag.knownMinH
      (drag.startRect.Right - drag.startRect.Left +
        centerDW initialAspect (currentPt.X - drag.startPt.X)
          (currentPt.Y - drag.startPt.Y))
      (drag.startRect.Bottom - drag.startRect.Top +
        centerDH initialAspect (currentPt.X - drag.startPt.X)
          (currentPt.Y - drag.startPt.Y))
    with ⟨wa, ha⟩
  dsimp only
  rcases hp2 : clampPassTwo drag.knownMinW drag.knownMinH wa ha with ⟨w3, h3⟩
  dsimp only
  have hmin := clampPassTwo_min drag.knownMinW drag.knownMinH wa ha
  rw [hp2] at hmin
  refine ⟨hmin.1, hmin.2, recenter_bounds _ _ _, recenter_bounds _ _ _, ?_⟩
  intro h1 h2
  rw [clampPassOne_id _ _ _ _ _ _ h1 h2] at hp1
  obtain ⟨rfl, rfl⟩ : wa = _ ∧ ha = _ :=
    ⟨congrArg Prod.fst hp1.symm, congrArg Prod.snd hp1.symm⟩
  rw [clampPassTwo_id _ _ _ _ h1 h2] at hp2
  exact ⟨congrArg Prod.fst hp2.symm, congrArg Prod.snd hp2.symm⟩

/-- Witness for C7, on a 400×300 window (aspect ratio 4/3) with the cursor
moved by (10, 5). -/
theorem calculateResize_center_spec_witness :
    CenterResizeOK (4 / 3 : ℚ) ⟨⟨0, 0⟩, ⟨0, 0, 400, 300⟩, 300, 300⟩ ⟨10, 5⟩ :=
  calculateResize_center_spec (4 / 3 : ℚ) ⟨⟨0, 0⟩, ⟨0, 0, 400, 300⟩, 300, 300⟩ ⟨10, 5⟩

/-! ## C2 — the drag-state/mode invariant and the elevated-target path -/

/-- C2 (code bug): a Win-held left-button-down over a valid window whose
integrity level (0x3000, High) exceeds the program's own (0x2000, Medium)
leaves the engine `capturing` with `currentDrag = nil`: `startDrag`
returns early without creating the drag state (src/main.go lines
1138-1141) but `mouseProc` sets `capturing = true` unconditionally
afterwards (line 1715).  This is exactly the state the code's own panics
(`race detected2`, line 1916, and the `impossible state` panic at line
1653) declare unreachable — the next left-button-up panics the hook
thread — so the claimed invariant (drag state non-nil iff mode not Idle)
is the intent and the code violates it. -/
theorem elevated_lbuttondown_breaks_invariant :
    mouseProc
        ⟨false, false, 0, none, false, 0, 0, true, 0, 0, [], 0⟩
        false false
        (.lbuttondown ⟨true, false, false, false, ⟨50, 60⟩, 42, ⟨0, 0, 100, 100⟩,
          some 0x3000, some 0x2000, false, true, true⟩) =
      .ok ⟨true, false, 42, none, true, 0, 0, true, 0, 0, [], 0⟩
        [Effect.sendInputShiftTap, Effect.showTrayElevated] true ∧
    (⟨true, false, 42, none, true, 0, 0, true, 0, 0, [], 0⟩ : EngineState).capturing
      = true ∧
    (⟨true, false, 42, none, true, 0, 0, true, 0, 0, [], 0⟩ : EngineState).currentDrag
      = none ∧
    mouseProc ⟨true, false, 42, none, true, 0, 0, true, 0, 0, [], 0⟩
        false false .lbuttonup =
      .panicked .raceDetected2
        ⟨true, false, 42, none, true, 0, 0, true, 0, 0, [], 0⟩ [] := by
  decide

/-! ## C4 — where the shell-suppression injection runs -/

/-- C4 counterexample: the mouse hook's `WM_LBUTTONDOWN` arm calls
`injectShiftTapOnly` (a direct `SendInput`) from inside the hook callback
(src/main.go line 1631) — here on a Win-held click over no window, whose
entire effect list is that one direct injection and no posted control
message — refuting the claim that every hook code path requests the
injection by posting to the worker. -/
theorem mouse_hook_injects_tap_directly :
    mouseProc ⟨false, false, 0, none, false, 0, 0, true, 0, 0, [], 0⟩ false false
        (.lbuttondown ⟨true, false, false, false, ⟨5, 5⟩, 0, ⟨0, 0, 1, 1⟩, none, none,
          false, false, false⟩) =
      .ok ⟨false, false, 0, none, true, 0, 0, true, 0, 0, [], 0⟩
        [Effect.sendInputShiftTap] true ∧
    Effect.sendInputShiftTap ∈ [Effect.sendInputShiftTap] := by
  decide

/-- C4 (amended): the *keyboard* hook never injects directly — on a
genuine Win-up with a consumed gesture it posts `WM_INJECT_SEQUENCE` to
the worker's message window, and the worker's `wndProc` performs that
injection — but the solo-Win poison tap (`injectShiftTapOnly`) is
executed directly inside the mouse hook callback: at the start of each of
the three gestures (`WM_LBUTTONDOWN`, `WM_RBUTTONDOWN`, `WM_MBUTTONDOWN`,
src/main.go lines 1631, 1939, 1988) and inside `hardReset` when poisoning
is still required (line 1185). -/
theorem injection_sites_spec :
    (∀ (st : EngineState) (nCodeNeg injected : Bool) (vk : Nat),
       Effect.sendInputShiftTap ∉ resultEffects (keyboardWinUp st nCodeNeg injected vk) ∧
       (st.winGestureUsed = true →
         keyboardWinUp st false false vk =
           .ok {st with winGestureUsed := false} [Effect.postInjectSequence vk] true) ∧
       wndProcInjectSequence vk = [WorkerEffect.sendInputShiftTapThenWinUp vk]) ∧
    (∀ (st : EngineState) (env : LButtonDownEnv),
       env.winDown = true → env.shiftDown = false → env.ctrlDown = false →
       env.altDown = false → st.winGestureUsed = false →
       Effect.sendInputShiftTap ∈ resultEffects (mouseLButtonDown st env)) ∧
    (∀ (st : EngineState) (env : RButtonDownEnv),
       env.winDown = true → env.shiftDown = false → env.ctrlDown = false →
       env.altDown = false → st.winGestureUsed = false →
       Effect.sendInputShiftTap ∈ resultEffects (mouseRButtonDown st env)) ∧
    (∀ (st : EngineState) (env : MButtonDownEnv),
       env.winDown = true → env.ctrlDown = false → env.altDown = false →
       st.winGestureUsed = false →
       Effect.sendInputShiftTap ∈ resultEffects (mouseMButtonDown st env)) ∧
    (∀ (st : EngineState) (releaseCapture : Bool),
       st.winGestureUsed = true →
       Effect.sendInputShiftTap ∈ (hardReset st true releaseCapture).2) := by
  refine ⟨?_, ?_, ?_, ?_, ?_⟩
  · intro st nCodeNeg injected vk
    refine ⟨?_, ?_, rfl⟩
    · unfold keyboardWinUp
      split_ifs <;> simp [resultEffects]
    · intro hg
      unfold keyboardWinUp
      simp [hg]
  · intro st env hw hs hc ha hg
    simp only [mouseLButtonDown, hw, hs, hc, ha, hg]
    norm_num
    split_ifs <;> simp [resultEffects, lbdProceed]
  · intro st env hw hs hc ha hg
    simp only [mouseRButtonDown, hw, hs, hc, ha, hg]
    norm_num
    split_ifs <;> simp [resultEffects]
  · intro st env hw hc ha hg
    simp only [mouseMButtonDown, hw, hc, ha, hg]
    norm_num
    split_ifs <;> simp [resultEffects, tryPushMove]
  · intro st releaseCapture hg
    unfold hardReset softReset
    simp [hg]

/-- Witness for the amended C4: a keyboard Win-up (vk 0x5B) mid-resize
posts the inject sequence without injecting; a concrete Win-held
left-button-down injects the tap directly from the hook; so does
`hardReset` with Win still down. -/
theorem injection_sites_spec_witness :
    (Effect.sendInputShiftTap ∉
      resultEffects (keyboardWinUp
        ⟨false, true, 3, some ⟨⟨0, 0⟩, ⟨0, 0, 9, 9⟩, 300, 300⟩, true, 0, 1, true,
          0, 0, [], 0⟩ false false 0x5B) ∧
     ((⟨false, true, 3, some ⟨⟨0, 0⟩, ⟨0, 0, 9, 9⟩, 300, 300⟩, true, 0, 1, true,
          0, 0, [], 0⟩ : EngineState).winGestureUsed = true →
       keyboardWinUp
           ⟨false, true, 3, some ⟨⟨0, 0⟩, ⟨0, 0, 9, 9⟩, 300, 300⟩, true, 0, 1, true,
             0, 0, [], 0⟩ false false 0x5B =
         .ok ⟨false, true, 3, some ⟨⟨0, 0⟩, ⟨0, 0, 9, 9⟩, 300, 300⟩, false, 0, 1, true,
             0, 0, [], 0⟩ [Effect.postInjectSequence 0x5B] true) ∧
     wndProcInjectSequence 0x5B = [WorkerEffect.sendInputShiftTapThenWinUp 0x5B]) ∧
    Effect.sendInputShiftTap ∈
      resultEffects (mouseLButtonDown
        ⟨false, false, 0, none, false, 0, 0, true, 0, 0, [], 0⟩
        ⟨true, false, false, false, ⟨5, 5⟩, 11, ⟨0, 0, 30, 30⟩, some 0x2000, some 0x2000,
          false, true, false⟩) ∧
    Effect.sendInputShiftTap ∈
      (hardReset
        ⟨true, false, 7, some ⟨⟨0, 0⟩, ⟨0, 0, 10, 10⟩, 0, 0⟩, true, 0, 1, true,
          0, 0, [], 0⟩ true false).2 :=
  ⟨injection_sites_spec.1
      ⟨false, true, 3, some ⟨⟨0, 0⟩, ⟨0, 0, 9, 9⟩, 300, 300⟩, true, 0, 1, true,
        0, 0, [], 0⟩ false false 0x5B,
   injection_sites_spec.2.1
      ⟨false, false, 0, none, false, 0, 0, true, 0, 0, [], 0⟩
      ⟨true, false, false, false, ⟨5, 5⟩, 11, ⟨0, 0, 30, 30⟩, some 0x2000, some 0x2000,
        false, true, false⟩ rfl rfl rfl rfl rfl,
   injection_sites_spec.2.2.2.2
      ⟨true, false, 7, some ⟨⟨0, 0⟩, ⟨0, 0, 10, 10⟩, 0, 0⟩, true, 0, 1, true,
        0, 0, [], 0⟩ false rfl⟩

/-! ## C8 — hard reset vs soft reset -/

/-- C8 counterexample: `hardReset` invoked while the async key state
reports Win up (exactly the situation of the call at src/main.go line
1745) leaves `winGestureUsed` set: with `winGestureUsed = true` and
`winDownAsync = false`, the flag survives the hard reset, so "after any
hard reset winGestureUsed is false" is false, and clearing the flag is
not the only difference (the conditional direct injection is another). -/
theorem hardReset_keeps_flag_when_win_up :
    ((hardReset
        ⟨true, false, 7, some ⟨⟨0, 0⟩, ⟨0, 0, 10, 10⟩, 0, 0⟩, true, 0, 1, true,
          0, 0, [], 0⟩
        false true).1).winGestureUsed = true := by
  decide

/-- C8 (amended): a hard reset performs exactly the state effects of a
soft reset, except that — only when `winGestureUsed` is set *and* the
async query still reports a Win key down — it additionally injects the
poison tap and clears `winGestureUsed`; so after a hard reset
`winGestureUsed = old ∧ ¬winDown`, and a soft reset always preserves the
flag. -/
theorem hardReset_spec (st : EngineState) (winDownAsync releaseCapture : Bool) :
    (hardReset st winDownAsync releaseCapture).1 =
      {(softReset st releaseCapture).1 with
        winGestureUsed := st.winGestureUsed && !winDownAsync} ∧
    (hardReset st winDownAsync releaseCapture).2 =
      (if (st.winGestureUsed && winDownAsync) = true then [Effect.sendInputShiftTap]
       else []) ++ (softReset st releaseCapture).2 ∧
    (softReset st releaseCapture).1.winGestureUsed = st.winGestureUsed := by
  unfold hardReset softReset
  rcases hg : st.winGestureUsed <;> rcases hw : winDownAsync <;> simp_all

/-! ## C9 — learned minimums never decrease within a resize gesture -/

theorem learnMinStep_mono (dr : dragState) (reqW reqH aW aH : Int) :
    dr.knownMinW ≤ (learnMinStep dr reqW reqH aW aH).knownMinW ∧
    dr.knownMinH ≤ (learnMinStep dr reqW reqH aW aH).knownMinH := by
  unfold learnMinStep
  dsimp only
  simp only [apply_ite dragState.knownMinW, apply_ite dragState.knownMinH]
  split_ifs <;> omega

/-- C9: within a resize gesture the learned minimums never decrease.
(1) The `WM_RBUTTONDOWN` arm seeds every freshly created drag state at the
300×300 floor (`minimumW`/`minimumH`); (2) a single executor update never
lowers either minimum; (3) an update changes a minimum only when the
OS-reported actual size exceeds both the requested size and the current
minimum, and then sets it to the actual size; (4) over any sequence of
executor observations the minimums are monotone (and the drag state is
touched by no other operation before it is destroyed). -/
theorem learnedMin_invariant :
    (∀ (st : EngineState) (env : RButtonDownEnv) (st' : EngineState)
       (effs : List Effect) (sw : Bool),
       st.currentDrag = none →
       mouseRButtonDown st env = .ok st' effs sw →
       ∀ dr, st'.currentDrag = some dr →
         dr.knownMinW = minimumW ∧ dr.knownMinH = minimumH ∧
         dr.startPt = env.pt ∧ dr.startRect = env.windowRect) ∧
    (∀ (dr : dragState) (reqW reqH aW aH : Int),
       dr.knownMinW ≤ (learnMinStep dr reqW reqH aW aH).knownMinW ∧
       dr.knownMinH ≤ (learnMinStep dr reqW reqH aW aH).knownMinH) ∧
    (∀ (dr : dragState) (reqW reqH aW aH : Int),
       ((learnMinStep dr reqW reqH aW aH).knownMinW ≠ dr.knownMinW →
         (learnMinStep dr reqW reqH aW aH).knownMinW = aW ∧
         reqW < aW ∧ dr.knownMinW < aW) ∧
       ((learnMinStep dr reqW reqH aW aH).knownMinH ≠ dr.knownMinH →
         (learnMinStep dr reqW reqH aW aH).knownMinH = aH ∧
         reqH < aH ∧ dr.knownMinH < aH)) ∧
    (∀ (dr : dragState) (l : List (Int × Int × Int × Int)),
       dr.knownMinW ≤ (learnMinFold dr l).knownMinW ∧
       dr.knownMinH ≤ (learnMinFold dr l).knownMinH) := by
  refine ⟨?_, learnMinStep_mono, ?_, ?_⟩
  · intro st env st' effs sw h0 hrun dr hdr
    rcases hg : st.winGestureUsed <;>
      · unfold mouseRButtonDown at hrun
        simp only [hg] at hrun
        split_ifs at hrun <;>
          · simp only [HookResult.ok.injEq] at hrun
            obtain ⟨rfl, -, -⟩ := hrun
            simp_all
            try (subst hdr; exact ⟨rfl, rfl, rfl, rfl⟩)
  · intro dr reqW reqH aW aH
    unfold learnMinStep
    dsimp only
    simp only [apply_ite dragState.knownMinW, apply_ite dragState.knownMinH]
    constructor <;> split_ifs <;> intro hne <;> simp_all
  · intro dr l
    induction l generalizing dr with
    | nil => simp [learnMinFold]
    | cons q t ih =>
      have h1 := learnMinStep_mono dr q.1 q.2.1 q.2.2.1 q.2.2.2
      have h2 := ih (learnMinStep dr q.1 q.2.1 q.2.2.1 q.2.2.2)
      simp only [learnMinFold, List.foldl_cons] at h2 ⊢
      exact ⟨le_trans h1.1 h2.1, le_trans h1.2 h2.2⟩

/-- Witness for C9: a concrete right-button-down on window 9 over a 50×40
rectangle seeds the drag at the 300×300 floor, and one executor
observation (request 340×330, actual 350×360) only raises the
minimums. -/
theorem learnedMin_invariant_witness :
    ((⟨⟨5, 6⟩, ⟨0, 0, 50, 40⟩, 300, 300⟩ : dragState).knownMinW = minimumW ∧
     (⟨⟨5, 6⟩, ⟨0, 0, 50, 40⟩, 300, 300⟩ : dragState).knownMinH = minimumH ∧
     (⟨⟨5, 6⟩, ⟨0, 0, 50, 40⟩, 300, 300⟩ : dragState).startPt = (⟨5, 6⟩ : POINT) ∧
     (⟨⟨5, 6⟩, ⟨0, 0, 50, 40⟩, 300, 300⟩ : dragState).startRect =
       (⟨0, 0, 50, 40⟩ : RECT)) ∧
    ((⟨⟨5, 6⟩, ⟨0, 0, 50, 40⟩, 300, 300⟩ : dragState).knownMinW ≤
       (learnMinFold ⟨⟨5, 6⟩, ⟨0, 0, 50, 40⟩, 300, 300⟩
         [(340, 330, 350, 360)]).knownMinW ∧
     (⟨⟨5, 6⟩, ⟨0, 0, 50, 40⟩, 300, 300⟩ : dragState).knownMinH ≤
       (learnMinFold ⟨⟨5, 6⟩, ⟨0, 0, 50, 40⟩, 300, 300⟩
         [(340, 330, 350, 360)]).knownMinH) :=
  ⟨learnedMin_invariant.1
      ⟨false, false, 0, none, false, 0, 0, true, 0, 0, [], 0⟩
      ⟨true, false, false, false, ⟨5, 6⟩, 9, ⟨0, 0, 50, 40⟩⟩
      _ _ _ rfl rfl ⟨⟨5, 6⟩, ⟨0, 0, 50, 40⟩, 300, 300⟩ rfl,
   learnedMin_invariant.2.2.2 ⟨⟨5, 6⟩, ⟨0, 0, 50, 40⟩, 300, 300⟩
      [(340, 330, 350, 360)]⟩

/-! ## C3 — Win-release detection mid-gesture -/

/-- C3 counterexample: with the gesture in mode Resizing and the async key
state reporting both Win keys up (`winDown = false`), a mouse move does
*not* terminate the gesture: the `WM_MOUSEMOVE` arm checks the Win state
only in its `capturing` (Moving) block (src/main.go lines 1740-1747); the
resizing block (lines 1881-1898) performs no such check, so the resize
continues and another command is enqueued, refuting the claim for mode
Resizing. -/
theorem resizing_survives_win_release :
    mouseMouseMove
        ⟨false, true, 7, some ⟨⟨0, 0⟩, ⟨0, 0, 400, 300⟩, 300, 300⟩, true, 8, 2, true,
          0, 0, [], 0⟩
        ⟨false, ⟨10, 20⟩, true, false, false⟩ =
      .ok ⟨false, true, 7, some ⟨⟨0, 0⟩, ⟨0, 0, 400, 300⟩, 300, 300⟩, true, 8, 2, true,
          0, 0, [⟨7, 0, 0, 410, 320, 0, 20⟩], 0⟩
        [Effect.enqueue ⟨7, 0, 0, 410, 320, 0, 20⟩, Effect.postDoSetWindowPos] false ∧
    (⟨false, true, 7, some ⟨⟨0, 0⟩, ⟨0, 0, 400, 300⟩, 300, 300⟩, true, 8, 2, true,
          0, 0, [⟨7, 0, 0, 410, 320, 0, 20⟩], 0⟩ : EngineState).resizing = true := by
  decide

/-- C3 (amended): a detected async Win-release terminates a *Moving*
gesture with a hard reset (mode to Idle, drag destroyed, capture
released) on the next mouse move; while *Resizing* the mouse hook
performs no Win-release check and the gesture continues with its drag
state intact; and the keyboard hook's Win-up arm clears `winGestureUsed`
and posts the injection sequence but does not reset the gesture state. -/
theorem winRelease_reset_spec :
    (∀ (st : EngineState) (env : MouseMoveEnv) (dr : dragState),
       st.currentDrag = some dr → st.capturing = true → env.winDown = false →
       mouseMouseMove st env =
         .ok {st with capturing := false, resizing := false, targetWnd := 0,
                      currentDrag := none}
           [Effect.releaseCapture, Effect.hideOverlay] false) ∧
    (∀ (st : EngineState) (env : MouseMoveEnv) (dr : dragState),
       st.currentDrag = some dr → st.capturing = false → st.resizing = true →
       st.chanBuf.length < chanCapacity →
       ∃ st' effs, mouseMouseMove st env = .ok st' effs false ∧
         st'.resizing = true ∧ st'.currentDrag = some dr) ∧
    (∀ (st : EngineState) (vk : Nat),
       st.winGestureUsed = true →
       keyboardWinUp st false false vk =
         .ok {st with winGestureUsed := false} [Effect.postInjectSequence vk] true ∧
       ({st with winGestureUsed := false} : EngineState).capturing = st.capturing ∧
       ({st with winGestureUsed := false} : EngineState).resizing = st.resizing ∧
       ({st with winGestureUsed := false} : EngineState).currentDrag = st.currentDrag) := by
  refine ⟨?_, ?_, ?_⟩
  · intro st env dr hdrag hcap hwin
    simp [mouseMouseMove, hdrag, hcap, hwin, hardReset, softReset]
  · intro st env dr hdrag hcap hres hbuf
    unfold mouseMouseMove resizeBranchMM
    simp only [hdrag, hcap, hres]
    rcases hg : env.rateGateOpen
    · norm_num [hg]
      exact ⟨hres, hdrag⟩
    · norm_num [hg, hbuf]
  · intro st vk hg
    simp [keyboardWinUp, hg]

/-- Witness for the amended C3: a Moving gesture is hard-reset by a mouse
move with Win up; a keyboard Win-up mid-resize only clears the flag and
posts, leaving `capturing`, `resizing` and the drag untouched. -/
theorem winRelease_reset_spec_witness :
    (mouseMouseMove
        ⟨true, false, 5, some ⟨⟨0, 0⟩, ⟨0, 0, 100, 100⟩, 0, 0⟩, true, 0, 1, true,
          0, 0, [], 0⟩
        ⟨false, ⟨3, 4⟩, true, false, false⟩ =
      .ok ⟨false, false, 0, none, true, 0, 1, true, 0, 0, [], 0⟩
        [Effect.releaseCapture, Effect.hideOverlay] false) ∧
    (keyboardWinUp
        ⟨false, true, 7, some ⟨⟨0, 0⟩, ⟨0, 0, 400, 300⟩, 300, 300⟩, true, 8, 2, true,
          0, 0, [], 0⟩ false false 0x5B =
      .ok ⟨false, true, 7, some ⟨⟨0, 0⟩, ⟨0, 0, 400, 300⟩, 300, 300⟩, false, 8, 2, true,
          0, 0, [], 0⟩ [Effect.postInjectSequence 0x5B] true ∧
     (⟨false, true, 7, some ⟨⟨0, 0⟩, ⟨0, 0, 400, 300⟩, 300, 300⟩, false, 8, 2, true,
          0, 0, [], 0⟩ : EngineState).capturing =
       (⟨false, true, 7, some ⟨⟨0, 0⟩, ⟨0, 0, 400, 300⟩, 300, 300⟩, true, 8, 2, true,
          0, 0, [], 0⟩ : EngineState).capturing ∧
     (⟨false, true, 7, some ⟨⟨0, 0⟩, ⟨0, 0, 400, 300⟩, 300, 300⟩, false, 8, 2, true,
          0, 0, [], 0⟩ : EngineState).resizing =
       (⟨false, true, 7, some ⟨⟨0, 0⟩, ⟨0, 0, 400, 300⟩, 300, 300⟩, true, 8, 2, true,
          0, 0, [], 0⟩ : EngineState).resizing ∧
     (⟨false, true, 7, some ⟨⟨0, 0⟩, ⟨0, 0, 400, 300⟩, 300, 300⟩, false, 8, 2, true,
          0, 0, [], 0⟩ : EngineState).currentDrag =
       (⟨false, true, 7, some ⟨⟨0, 0⟩, ⟨0, 0, 400, 300⟩, 300, 300⟩, true, 8, 2, true,
          0, 0, [], 0⟩ : EngineState).currentDrag) :=
  ⟨winRelease_reset_spec.1
      ⟨true, false, 5, some ⟨⟨0, 0⟩, ⟨0, 0, 100, 100⟩, 0, 0⟩, true, 0, 1, true,
        0, 0, [], 0⟩
      ⟨false, ⟨3, 4⟩, true, false, false⟩
      ⟨⟨0, 0⟩, ⟨0, 0, 100, 100⟩, 0, 0⟩ rfl rfl rfl,
   winRelease_reset_spec.2.2
      ⟨false, true, 7, some ⟨⟨0, 0⟩, ⟨0, 0, 400, 300⟩, 300, 300⟩, true, 8, 2, true,
        0, 0, [], 0⟩ 0x5B rfl⟩

/-! ## C5 — content of the move commands -/

/-- When `resizing` is false the resize block of `WM_MOUSEMOVE` is a
no-op: the state and accumulated effects pass through and the event is
not eaten. -/
theorem resizeBranchMM_not_resizing (st : EngineState) (env : MouseMoveEnv)
    (effs : List Effect) (h : st.resizing = false) :
    resizeBranchMM st env effs = .ok st effs false := by
  unfold resizeBranchMM
  cases st.currentDrag <;> simp [h]

/-- C5: every move command a `WM_MOUSEMOVE` in mode Moving (capturing,
not resizing, Win still down) enqueues carries the new top-left
`startRect.topLeft + (cursor − startCursor)`, no size change (`W = H = 0`),
the tracked target window, and exactly the flag set
`SWP_NOSIZE ||| SWP_NOACTIVATE ||| SWP_NOZORDER ||| SWP_ASYNCWINDOWPOS`,
whose bits request no size change, no z-order change and no
activation. -/
theorem moveCommand_spec (st : EngineState) (env : MouseMoveEnv) (dr : dragState)
    (hdrag : st.currentDrag = some dr) (hcap : st.capturing = true)
    (hres : st.resizing = false) (hwin : env.winDown = true) :
    ∀ st' effs sw, mouseMouseMove st env = .ok st' effs sw →
    ∀ d, Effect.enqueue d ∈ effs →
      d.X = dr.startRect.Left + (env.pt.X - dr.startPt.X) ∧
      d.Y = dr.startRect.Top + (env.pt.Y - dr.startPt.Y) ∧
      d.W = 0 ∧ d.H = 0 ∧ d.Hwnd = st.targetWnd ∧
      d.Flags = (SWP_NOSIZE ||| SWP_NOACTIVATE ||| SWP_NOZORDER ||| SWP_ASYNCWINDOWPOS) ∧
      d.Flags &&& SWP_NOSIZE ≠ 0 ∧ d.Flags &&& SWP_NOZORDER ≠ 0 ∧
      d.Flags &&& SWP_NOACTIVATE ≠ 0 := by
  intro st' effs sw hok d hd
  unfold mouseMouseMove at hok
  simp only [hdrag, hcap, hwin] at hok
  norm_num at hok
  split_ifs at hok <;>
    rw [resizeBranchMM_not_resizing _ _ _
      (by try simp only [tryPushMove]
          try split
          all_goals simp [hres])] at hok <;>
      · simp only [HookResult.ok.injEq] at hok
        obtain ⟨-, rfl, -⟩ := hok
        simp [tryPushMove] at hd
        try (split at hd <;> simp_all)
        all_goals exact ⟨by decide, by decide, by decide⟩

/-- Witness for C5, on the spec's plain-move scenario: window rect
(100,100,500,400), button down at (250,150), cursor at (300,200) — the
enqueued command's top-left is (150,150). -/
theorem moveCommand_spec_witness :
    (⟨5, 150, 150, 0, 0, 0, 16405⟩ : WindowMoveData).X = 150 ∧
    (⟨5, 150, 150, 0, 0, 0, 16405⟩ : WindowMoveData).Y = 150 ∧
    (⟨5, 150, 150, 0, 0, 0, 16405⟩ : WindowMoveData).W = 0 ∧
    (⟨5, 150, 150, 0, 0, 0, 16405⟩ : WindowMoveData).H = 0 ∧
    (⟨5, 150, 150, 0, 0, 0, 16405⟩ : WindowMoveData).Hwnd = 5 ∧
    (⟨5, 150, 150, 0, 0, 0, 16405⟩ : WindowMoveData).Flags = 16405 ∧
    (⟨5, 150, 150, 0, 0, 0, 16405⟩ : WindowMoveData).Flags &&& 1 ≠ 0 ∧
    (⟨5, 150, 150, 0, 0, 0, 16405⟩ : WindowMoveData).Flags &&& 4 ≠ 0 ∧
    (⟨5, 150, 150, 0, 0, 0, 16405⟩ : WindowMoveData).Flags &&& 16 ≠ 0 :=
  moveCommand_spec
    ⟨true, false, 5, some ⟨⟨250, 150⟩, ⟨100, 100, 500, 400⟩, 0, 0⟩, true, 0, 1, true,
      0, 0, [], 0⟩
    ⟨true, ⟨300, 200⟩, true, false, false⟩
    ⟨⟨250, 150⟩, ⟨100, 100, 500, 400⟩, 0, 0⟩ rfl rfl rfl rfl
    _ _ _ rfl ⟨5, 150, 150, 0, 0, 0, 16405⟩ (by decide)

/-! ## C1 — producer push disciplines -/

/-- The resize block on a full channel: the hook thread is suspended in
the plain channel send of src/main.go line 1886 — the callback does not
return and the drop counter is untouched. -/
theorem mouseMouseMove_resizing_full (st : EngineState) (env : MouseMoveEnv)
    (dr : dragState) (hdrag : st.currentDrag = some dr) (hcap : st.capturing = false)
    (hres : st.resizing = true) (hgate : env.rateGateOpen = true)
    (hfull : ¬ st.chanBuf.length < chanCapacity) :
    mouseMouseMove st env =
      .blocked ⟨st.targetWnd,
        (calculateResize st.respectAspect st.initialAspect dr st.resizeZone env.pt).1,
        (calculateResize st.respectAspect st.initialAspect dr st.resizeZone env.pt).2.1,
        (calculateResize st.respectAspect st.initialAspect dr st.resizeZone env.pt).2.2.1,
        (calculateResize st.respectAspect st.initialAspect dr st.resizeZone env.pt).2.2.2,
        0, SWP_NOZORDER ||| SWP_NOACTIVATE⟩ st [] := by
  unfold mouseMouseMove resizeBranchMM
  simp only [hdrag, hcap, hres, hgate]
  norm_num [hfull]

theorem fullBuf_not_lt : ¬ fullBuf.length < chanCapacity := by
  rw [fullBuf, List.length_replicate, chanCapacity]
  omega

/-- C1 counterexample: a mouse move in mode Resizing with the 2048-slot
channel full makes the hook *block* in the plain channel send
(src/main.go line 1886): the callback does not return, the command is
neither discarded nor counted — the dropped-events counter stays 0 —
refuting the claim for resize commands. -/
theorem resize_send_blocks_on_full :
    mouseMouseMove stFullResz ⟨true, ⟨10, 20⟩, true, false, false⟩ =
      .blocked ⟨7, 0, 0, 410, 320, 0, 20⟩ stFullResz [] ∧
    stFullResz.droppedMoveEvents = 0 := by
  have h := mouseMouseMove_resizing_full stFullResz ⟨true, ⟨10, 20⟩, true, false, false⟩
      ⟨⟨0, 0⟩, ⟨0, 0, 400, 300⟩, 300, 300⟩ rfl rfl rfl rfl fullBuf_not_lt
  rw [h]
  constructor
  · congr 1
  · rfl

/-- C1 (amended): the move-command and z-order-command enqueues use the
non-blocking `select`/`default` push — on a full queue the command is
discarded, the dropped-events counter increases by exactly 1 and the
callback returns; with room, the command is appended and the doorbell
posted.  The resize-command enqueue, by contrast, is a plain blocking
channel send: on a full queue the hook callback blocks (does not return)
and no drop is counted. -/
theorem producer_push_spec :
    (∀ (st : EngineState) (env : MouseMoveEnv) (dr : dragState),
       st.currentDrag = some dr → st.capturing = true → st.resizing = false →
       env.winDown = true → env.rateGateOpen = true → env.ratelimitOnMove = false →
       ¬ st.chanBuf.length < chanCapacity →
       mouseMouseMove st env =
         .ok {st with droppedMoveEvents := st.droppedMoveEvents + 1} [] false) ∧
    (∀ (st : EngineState) (env : MouseMoveEnv) (dr : dragState),
       st.currentDrag = some dr → st.capturing = true → st.resizing = false →
       env.winDown = true → env.rateGateOpen = true → env.ratelimitOnMove = false →
       st.chanBuf.length < chanCapacity →
       mouseMouseMove st env =
         .ok {st with chanBuf := st.chanBuf ++
               [⟨st.targetWnd, dr.startRect.Left + (env.pt.X - dr.startPt.X),
                 dr.startRect.Top + (env.pt.Y - dr.startPt.Y), 0, 0, 0,
                 SWP_NOSIZE ||| SWP_NOACTIVATE ||| SWP_NOZORDER ||| SWP_ASYNCWINDOWPOS⟩]}
           [Effect.enqueue ⟨st.targetWnd, dr.startRect.Left + (env.pt.X - dr.startPt.X),
              dr.startRect.Top + (env.pt.Y - dr.startPt.Y), 0, 0, 0,
              SWP_NOSIZE ||| SWP_NOACTIVATE ||| SWP_NOZORDER ||| SWP_ASYNCWINDOWPOS⟩,
            Effect.postDoSetWindowPos] false) ∧
    (∀ (st : EngineState) (env : MButtonDownEnv),
       env.winDown = true → env.ctrlDown = false → env.altDown = false →
       env.shiftDown = false → st.winGestureUsed = true →
       env.windowUnderCursor ≠ 0 → env.rateGateOpen = true →
       ¬ st.chanBuf.length < chanCapacity →
       mouseMButtonDown st env =
         .ok {st with droppedMoveEvents := st.droppedMoveEvents + 1} [] true) ∧
    (∀ (st : EngineState) (env : MouseMoveEnv) (dr : dragState),
       st.currentDrag = some dr → st.capturing = false → st.resizing = true →
       env.rateGateOpen = true → ¬ st.chanBuf.length < chanCapacity →
       mouseMouseMove st env =
         .blocked ⟨st.targetWnd,
           (calculateResize st.respectAspect st.initialAspect dr st.resizeZone env.pt).1,
           (calculateResize st.respectAspect st.initialAspect dr st.resizeZone env.pt).2.1,
           (calculateResize st.respectAspect st.initialAspect dr st.resizeZone env.pt).2.2.1,
           (calculateResize st.respectAspect st.initialAspect dr st.resizeZone env.pt).2.2.2,
           0, SWP_NOZORDER ||| SWP_NOACTIVATE⟩ st []) := by
  refine ⟨?_, ?_, ?_, fun st env dr h1 h2 h3 h4 h5 =>
    mouseMouseMove_resizing_full st env dr h1 h2 h3 h4 h5⟩
  · intro st env dr hdrag hcap hres hwin hgate hlim hfull
    unfold mouseMouseMove
    simp only [hdrag, hcap, hwin, hgate, hlim]
    norm_num [tryPushMove, hfull]
    rw [resizeBranchMM_not_resizing _ _ _ (by simp [hres])]
    simp [hcap, hdrag]
  · intro st env dr hdrag hcap hres hwin hgate hlim hroom
    unfold mouseMouseMove
    simp only [hdrag, hcap, hwin, hgate, hlim]
    norm_num [tryPushMove, hroom]
    rw [resizeBranchMM_not_resizing _ _ _ (by simp [hres])]
    simp [hcap, hdrag]
  · intro st env hwin hc ha hs hg hhw hgate hfull
    unfold mouseMButtonDown
    simp only [hwin, hc, ha, hs, hg, hgate]
    norm_num [tryPushMove, hfull, hhw]
    exact hg

/-- Witness for the amended C1: on the full channel the move command is
dropped (counter 3 → 4) and the callback returns; on an empty channel
the command is enqueued and the doorbell posted. -/
theorem producer_push_spec_witness :
    mouseMouseMove stFullMove ⟨true, ⟨10, 10⟩, true, false, false⟩ =
      .ok ⟨true, false, 5, some ⟨⟨0, 0⟩, ⟨100, 100, 500, 400⟩, 0, 0⟩, true, 0, 1, true,
        0, 0, fullBuf, 4⟩ [] false ∧
    mouseMouseMove
        ⟨true, false, 5, some ⟨⟨0, 0⟩, ⟨100, 100, 500, 400⟩, 0, 0⟩, true, 0, 1, true,
          0, 0, [], 0⟩
        ⟨true, ⟨110, 120⟩, true, false, false⟩ =
      .ok ⟨true, false, 5, some ⟨⟨0, 0⟩, ⟨100, 100, 500, 400⟩, 0, 0⟩, true, 0, 1, true,
          0, 0, [⟨5, 210, 220, 0, 0, 0, 16405⟩], 0⟩
        [Effect.enqueue ⟨5, 210, 220, 0, 0, 0, 16405⟩, Effect.postDoSetWindowPos] false :=
  ⟨producer_push_spec.1 stFullMove ⟨true, ⟨10, 10⟩, true, false, false⟩
      ⟨⟨0, 0⟩, ⟨100, 100, 500, 400⟩, 0, 0⟩ rfl rfl rfl rfl rfl rfl fullBuf_not_lt,
   producer_push_spec.2.1
      ⟨true, false, 5, some ⟨⟨0, 0⟩, ⟨100, 100, 500, 400⟩, 0, 0⟩, true, 0, 1, true,
        0, 0, [], 0⟩
      ⟨true, ⟨110, 120⟩, true, false, false⟩
      ⟨⟨0, 0⟩, ⟨100, 100, 500, 400⟩, 0, 0⟩ rfl rfl rfl rfl rfl rfl (by decide)⟩

end Winbollocks
